import Mathlib

/-!
Verification development for the engine's distributed build-cache manager
(`engine/cache/manager.go`). The Go code is shallowly embedded: external
collaborators (key store, result store, cache service client, worker) are
modelled as data or response functions carried in an environment record,
and each manager operation becomes a pure Lean function over that
environment, returning an `Except`-style outcome together with the
observable calls it made (layers pushed, RPCs issued, channels closed).
-/

namespace EngineCache

/-- Errors are carried as strings, standing in for Go `error` values. -/
abbrev Err := String

/-! ## Data model (wire types from the source) -/

/-- Fields of `solver.CacheInfoLink` read by the export walk. -/
structure CacheInfoLink where
  input : Int
  digest : String
  selector : String
deriving DecidableEq, Repr

/-- A `Link` as built at manager.go:141-147. -/
structure Link where
  id : String
  linkedID : String
  input : Int
  digest : String
  selector : String
deriving DecidableEq, Repr

/-- Fields of `solver.CacheResult` read by the export walk. -/
structure CacheResult where
  id : String
  createdAt : Nat
deriving DecidableEq, Repr

/-- Outcome of `m.ResultStore.Load` followed by the `res.Sys()` type
assertion, for one stored result: the load may fail, may yield a handle
that is not a `*worker.WorkerRef`, or may yield an immutable worker ref
with an ID and description. -/
inductive LoadOutcome where
  | loadErr (msg : String)
  | notWorkerRef
  | workerRef (refID : String) (description : String)
deriving DecidableEq, Repr

/-- One key of the local key store as seen by `KeyStore.Walk`: its ID, its
backlinks (as enumerated by `WalkBacklinks`) and its results (as
enumerated by `WalkResults`, each paired with the behaviour of
`ResultStore.Load` on it). -/
structure KeyEntry where
  id : String
  backlinks : List (String × CacheInfoLink)
  results : List (CacheResult × LoadOutcome)
deriving DecidableEq, Repr

/-- A `Result` in a `CacheKey`, built at manager.go:168-172. -/
structure WireResult where
  id : String
  createdAt : Nat
  description : String
deriving DecidableEq, Repr

/-- A `CacheKey` sent in `UpdateCacheRecordsRequest`. -/
structure WireCacheKey where
  id : String
  results : List WireResult
deriving DecidableEq, Repr

/-! ## Export Phase 1: the key-store walk (manager.go:138-183) -/

/-- The body of `KeyStore.WalkBacklinks` at manager.go:140-150: appends
one `Link` per backlink of key `id`, flattening the link info fields. -/
def walkBacklinks (e : KeyEntry) (links : List Link) : List Link :=
  e.backlinks.foldl
    (fun acc p =>
      acc ++ [{ id := e.id, linkedID := p.1, input := p.2.input,
                digest := p.2.digest, selector := p.2.selector }])
    links

/-- The body of `KeyStore.WalkResults` at manager.go:154-174: for each
stored result, `Load` it; a failed load is skipped, a loaded handle that
is not an immutable worker ref is skipped (but its ref was loaded, hence
released), and a worker ref contributes a `WireResult` and is released.
Returns the accumulated results and the IDs of the released loads. -/
def walkResults (rs : List (CacheResult × LoadOutcome)) :
    List WireResult × List String :=
  rs.foldl
    (fun acc p =>
      match p.2 with
      | .loadErr _ => acc
      | .notWorkerRef => (acc.1, acc.2 ++ [p.1.id])
      | .workerRef refID desc =>
          (acc.1 ++ [{ id := refID, createdAt := p.1.createdAt,
                       description := desc }], acc.2 ++ [p.1.id]))
    ([], [])

/-- Accumulated output of the Phase 1 walk. -/
structure WalkOut where
  cacheKeys : List WireCacheKey
  links : List Link
  released : List String
deriving DecidableEq, Repr

/-- The Phase 1 walk of `Export` (manager.go:138-183): `KeyStore.Walk`
visits every stored key, collecting its backlinks into `links` and its
loadable results into a `WireCacheKey`, which is appended even when all
of its results were skipped. -/
def exportWalk (entries : List KeyEntry) : WalkOut :=
  entries.foldl
    (fun acc e =>
      let links := walkBacklinks e acc.links
      let rr := walkResults e.results
      { cacheKeys := acc.cacheKeys ++ [{ id := e.id, results := rr.1 }],
        links := links,
        released := acc.released ++ rr.2 })
    ⟨[], [], []⟩

/-- Specification form of one key's emitted results: the worker-ref loads
in order. -/
def keyResultsSpec (rs : List (CacheResult × LoadOutcome)) : List WireResult :=
  rs.filterMap fun p =>
    match p.2 with
    | .workerRef refID desc =>
        some { id := refID, createdAt := p.1.createdAt, description := desc }
    | _ => none

/-- Specification form of one key's released result IDs: every result
whose load succeeded, whether or not it was a worker ref. -/
def keyReleasedSpec (rs : List (CacheResult × LoadOutcome)) : List String :=
  rs.filterMap fun p =>
    match p.2 with
    | .loadErr _ => none
    | _ => some p.1.id

/-- Specification form of one key's emitted links. -/
def keyLinksSpec (e : KeyEntry) : List Link :=
  e.backlinks.map fun p =>
    { id := e.id, linkedID := p.1, input := p.2.input,
      digest := p.2.digest, selector := p.2.selector }

/-! ## Export Phases 2-4 (manager.go:185-245) -/

/-- An `ExportRecord` returned by `UpdateCacheRecords`. -/
structure ExportRecord where
  cacheRefID : String
  digest : String
deriving DecidableEq, Repr

/-- An OCI layer descriptor (`ocispecs.Descriptor`), with its annotations
as an association list. -/
structure Descriptor where
  mediaType : String
  digest : String
  size : Int
  annotations : List (String × String)
deriving DecidableEq, Repr

/-- A remote of a cache ref (`*solver.Remote`): the list of its layer
descriptors (the content provider is kept abstract). -/
structure Remote where
  descriptors : List Descriptor
deriving DecidableEq, Repr

/-- `RecordLayers` reported to `UpdateCacheLayers`. -/
structure RecordLayers where
  recordDigest : String
  layers : List Descriptor
deriving DecidableEq, Repr

/-- Behaviour of the external collaborators used by `Export`: the local
key store contents, the two service RPCs, the worker cache-manager
`Get` combined with `GetRemotes` (`none` models a failed `Get`, which is
skipped; `some r` models a found ref whose `GetRemotes` call behaves as
`r`), and the outcome of `pushLayer` on each descriptor. -/
structure ExportEnv where
  entries : List KeyEntry
  updateCacheRecords :
    List WireCacheKey → List Link → Except Err (List ExportRecord)
  getRef : String → Option (Except Err (List Remote))
  push : Descriptor → Except Err Unit
  updateCacheLayers : List RecordLayers → Except Err Unit

/-- The `pushLayer` loop at manager.go:223-227: push each descriptor of
the chosen remote in order, stopping at the first error; also returns the
descriptors for which `pushLayer` was invoked. -/
def pushAll (env : ExportEnv) : List Descriptor → Except Err Unit × List Descriptor
  | [] => (.ok (), [])
  | d :: ds =>
      match env.push d with
      | .error e => (.error e, [d])
      | .ok _ =>
          let rest := pushAll env ds
          (rest.1, d :: rest.2)

/-- The per-record closure at manager.go:199-233: a failed `Get` or an
empty remote list skips the record (`.ok none`); a `GetRemotes` error or
a `pushLayer` error aborts the run; otherwise the record's `RecordLayers`
entry is produced from the first remote. Also returns the descriptors
pushed while processing this record. -/
def processRecord (env : ExportEnv) (r : ExportRecord) :
    Except Err (Option RecordLayers) × List Descriptor :=
  match env.getRef r.cacheRefID with
  | none => (.ok none, [])
  | some (.error e) => (.error e, [])
  | some (.ok []) => (.ok none, [])
  | some (.ok (remote :: _)) =>
      match pushAll env remote.descriptors with
      | (.error e, pushed) => (.error e, pushed)
      | (.ok _, pushed) =>
          (.ok (some { recordDigest := r.digest,
                       layers := remote.descriptors }), pushed)

/-- The Phase 3 loop at manager.go:198-236: process the requested records
in order, accumulating `updatedRecords`; the first per-record error aborts
the whole run. Also returns every descriptor pushed. -/
def phase3 (env : ExportEnv) :
    List ExportRecord → Except Err (List RecordLayers) × List Descriptor
  | [] => (.ok [], [])
  | r :: rs =>
      match processRecord env r with
      | (.error e, pushed) => (.error e, pushed)
      | (.ok none, pushed) =>
          let rest := phase3 env rs
          (rest.1, pushed ++ rest.2)
      | (.ok (some rl), pushed) =>
          match phase3 env rs with
          | (.error e, pushed2) => (.error e, pushed ++ pushed2)
          | (.ok tail, pushed2) => (.ok (rl :: tail), pushed ++ pushed2)

/-- Observable outcome of one `Export` run: its return value, the
argument of the `UpdateCacheLayers` call when that call was made, and the
descriptors passed to `pushLayer`. -/
structure ExportCall where
  result : Except Err Unit
  updateLayersArg : Option (List RecordLayers)
  pushed : List Descriptor
deriving Repr

/-- `Export` (manager.go:134-245): Phase 1 walks the key store, Phase 2
announces `(CacheKeys, Links)` via `UpdateCacheRecords`, an empty
`ExportRecords` reply ends the run successfully at manager.go:193-195,
Phase 3 uploads the requested records, and Phase 4 commits the uploaded
records via `UpdateCacheLayers`. -/
def Export (env : ExportEnv) : ExportCall :=
  let w := exportWalk env.entries
  match env.updateCacheRecords w.cacheKeys w.links with
  | .error e => { result := .error e, updateLayersArg := none, pushed := [] }
  | .ok recordsToExport =>
      if recordsToExport.length = 0 then
        { result := .ok (), updateLayersArg := none, pushed := [] }
      else
        match phase3 env recordsToExport with
        | (.error e, pushed) =>
            { result := .error e, updateLayersArg := none, pushed := pushed }
        | (.ok updatedRecords, pushed) =>
            { result := env.updateCacheLayers updatedRecords,
              updateLayersArg := some updatedRecords, pushed := pushed }

/-- A record that Phase 3 skips: its ref cannot be fetched, or the fetch
succeeds but yields zero remotes. -/
def recordSkipped (env : ExportEnv) (r : ExportRecord) : Prop :=
  env.getRef r.cacheRefID = none ∨ env.getRef r.cacheRefID = some (.ok [])

/-- The `RecordLayers` entry a record contributes when all layers of its
first remote upload successfully; `none` for a skipped or failing
record. -/
def recordUploadOutcome (env : ExportEnv) (r : ExportRecord) :
    Option RecordLayers :=
  match env.getRef r.cacheRefID with
  | some (.ok (remote :: _)) =>
      match (pushAll env remote.descriptors).1 with
      | .ok _ => some { recordDigest := r.digest, layers := remote.descriptors }
      | .error _ => none
  | _ => none

/-! ## Import (manager.go:278-309) and layer translation (352-379) -/

/-- The annotation block of an advertised `remotecache.CacheLayer`. The
timestamp is a tick count; `0` encodes Go's zero `time.Time`. -/
structure LayerAnnotations where
  diffID : String
  mediaType : String
  size : Int
  createdAt : Nat
deriving DecidableEq, Repr

/-- An advertised layer (`remotecache.CacheLayer`): its blob digest and
its possibly-nil annotations. -/
structure CacheLayer where
  blob : String
  annotations : Option LayerAnnotations
deriving DecidableEq, Repr

/-- Abstraction of `time.Time.MarshalText` (Go standard library, not part
of this repository): the textual serialization of a timestamp. The claims
depend only on which annotation carries it, so it is modelled as the
decimal rendering of the tick count. -/
def timeMarshalText (t : Nat) : String := toString t

/-- `descriptorProviderPair` (manager.go:352-379): translate advertised
layer metadata into a local OCI descriptor. Nil annotations or an empty
`DiffID` are errors; the diff ID always lands in the annotation
`containerd.io/uncompressed`; a non-zero `CreatedAt` is serialized into
`buildkit/createdat`; media type and size come from the metadata
annotations and the digest from the metadata's blob digest. The provider
half of the returned pair carries no data in this model. -/
def descriptorProviderPair (lm : CacheLayer) : Except Err Descriptor :=
  match lm.annotations with
  | none => .error ("missing annotations for layer " ++ lm.blob)
  | some ann =>
      if ann.diffID = "" then .error ("missing diffID for layer " ++ lm.blob)
      else
        let annots := [("containerd.io/uncompressed", ann.diffID)]
        let annots :=
          if ann.createdAt = 0 then annots
          else annots ++ [("buildkit/createdat", timeMarshalText ann.createdAt)]
        .ok { mediaType := ann.mediaType, digest := lm.blob,
              size := ann.size, annotations := annots }

/-- Opaque handle for a parsed `remotecache` cache chain. -/
abbrev Chain := Nat

/-- Opaque handle for the key/result storage built from a chain. -/
abbrev StorageHandle := Nat

/-- The remote `CacheConfig` returned by `ImportCache`: its advertised
layers plus an opaque remainder consumed only by `ParseConfig`. -/
structure CacheConfig where
  layers : List CacheLayer
  rest : Nat
deriving DecidableEq, Repr

/-- Insertion into the Go map `descProvider[layer.Blob] = pair`: replace
the entry with the same blob digest, else append. -/
def insertAssoc (m : List (String × Descriptor)) (k : String) (v : Descriptor) :
    List (String × Descriptor) :=
  match m with
  | [] => [(k, v)]
  | (k0, v0) :: rest =>
      if k0 = k then (k, v) :: rest else (k0, v0) :: insertAssoc rest k v

/-- The loop at manager.go:284-291: translate every advertised layer,
aborting at the first failure, and build the descriptor provider map. -/
def buildDescProvider (layers : List CacheLayer) :
    Except Err (List (String × Descriptor)) :=
  layers.foldlM
    (fun acc lm => do
      let pair ← descriptorProviderPair lm
      pure (insertAssoc acc lm.blob pair))
    []

/-- Behaviour of the collaborators used by `Import`: the `ImportCache`
RPC, `remotecache.ParseConfig` and `remotecache.NewCacheKeyStorage`. -/
structure ImportEnv where
  importCache : Except Err CacheConfig
  parseConfig : CacheConfig → List (String × Descriptor) → Except Err Chain
  newCacheKeyStorage : Chain → Except Err StorageHandle

/-- The combined view installed in `m.inner`: the imported storage
combined with the local cache (`NewCombinedCacheManager` at
manager.go:303). -/
structure CombinedView where
  imported : StorageHandle
deriving DecidableEq, Repr

/-- The mutable state guarded by `m.mu`: the current combined view.
`none` is the nil `inner` of a freshly allocated manager. -/
structure MState where
  inner : Option CombinedView
deriving DecidableEq, Repr

/-- `Import` (manager.go:278-309): fetch the remote cache config,
translate every advertised layer, parse the config into a chain, build
key/result storage from it, and only then swap the combined view; any
failure returns the error with the state untouched. -/
def Import (env : ImportEnv) (st : MState) : Except Err Unit × MState :=
  match env.importCache with
  | .error e => (.error e, st)
  | .ok cacheConfig =>
      match buildDescProvider cacheConfig.layers with
      | .error e => (.error e, st)
      | .ok descProvider =>
          match env.parseConfig cacheConfig descProvider with
          | .error e => (.error e, st)
          | .ok chain =>
              match env.newCacheKeyStorage chain with
              | .error e => (.error e, st)
              | .ok storage => (.ok (), { inner := some { imported := storage } })

/-! ## NewManager (manager.go:47-132) -/

/-- The runtime `Config` returned by `GetConfig`. Durations are
non-negative tick counts (Go `time.Duration` values as delivered by the
service). -/
structure Config where
  importPeriod : Nat
  exportPeriod : Nat
  exportTimeout : Nat
deriving DecidableEq, Repr

/-- Behaviour of the collaborators used by `NewManager`: the configured
service URL and engine ID, `newClient`, the `GetConfig` RPC, and the
behaviour of the initial synchronous `Import`. -/
structure ManagerEnv where
  serviceURL : String
  engineID : String
  newClient : String → Except Err Unit
  getConfig : String → Except Err Config
  importEnv : ImportEnv

/-- What `NewManager` hands back on success: the degenerate local-only
manager, or a service-backed manager with its post-import state and
runtime config. -/
inductive ManagerKind where
  | degenerate
  | service (st : MState) (cfg : Config)

/-- Observable outcome of `NewManager`: its return value and whether the
periodic import and export goroutines were launched. -/
structure NewManagerOut where
  result : Except Err ManagerKind
  importLoopStarted : Bool
  exportLoopStarted : Bool

/-- `NewManager` (manager.go:47-132): an empty service URL yields the
degenerate local-only manager with no loops; otherwise the client is
built, the config fetched and rejected if any period is zero, the initial
synchronous import run (its failure failing construction), and only then
are the import and export loops started. -/
def NewManager (env : ManagerEnv) : NewManagerOut :=
  if env.serviceURL = "" then
    { result := .ok .degenerate,
      importLoopStarted := false, exportLoopStarted := false }
  else
    match env.newClient env.serviceURL with
    | .error e =>
        { result := .error e,
          importLoopStarted := false, exportLoopStarted := false }
    | .ok _ =>
        match env.getConfig env.engineID with
        | .error e =>
            { result := .error e,
              importLoopStarted := false, exportLoopStarted := false }
        | .ok config =>
            if config.importPeriod = 0 ∨ config.exportPeriod = 0 ∨
                config.exportTimeout = 0 then
              { result := .error
                  "invalid cache config: import/export periods must be non-zero",
                importLoopStarted := false, exportLoopStarted := false }
            else
              match Import env.importEnv { inner := none } with
              | (.error e, _) =>
                  { result := .error e,
                    importLoopStarted := false, exportLoopStarted := false }
              | (.ok _, st) =>
                  { result := .ok (.service st config),
                    importLoopStarted := true, exportLoopStarted := true }

/-! ## The degenerate manager (manager.go:387-399) -/

/-- The solver-facing operations of the provided local cache, kept
abstract: inputs and outputs are opaque tokens. -/
structure SolverCacheOps where
  query : Nat → Except Err (List Nat)
  records : Nat → Except Err (List Nat)
  load : Nat → Except Err Nat
  save : Nat → Except Err Nat

/-- `defaultCacheManager` (manager.go:387-389): a wrapper embedding only
the local cache. -/
structure DefaultCacheManager where
  localCache : SolverCacheOps

/-- Delegation of `Query` to the embedded local cache. -/
def DefaultCacheManager.query (m : DefaultCacheManager) (q : Nat) :
    Except Err (List Nat) := m.localCache.query q

/-- Delegation of `Records` to the embedded local cache. -/
def DefaultCacheManager.records (m : DefaultCacheManager) (q : Nat) :
    Except Err (List Nat) := m.localCache.records q

/-- Delegation of `Load` to the embedded local cache. -/
def DefaultCacheManager.load (m : DefaultCacheManager) (q : Nat) :
    Except Err Nat := m.localCache.load q

/-- Delegation of `Save` to the embedded local cache. -/
def DefaultCacheManager.save (m : DefaultCacheManager) (q : Nat) :
    Except Err Nat := m.localCache.save q

/-- `defaultCacheManager.StartCacheMountSynchronization`
(manager.go:393-395): always nil. -/
def DefaultCacheManager.startCacheMountSynchronization
    (_ : DefaultCacheManager) : Except Err Unit := .ok ()

/-- `defaultCacheManager.Close` (manager.go:397-399): always nil. -/
def DefaultCacheManager.close (_ : DefaultCacheManager) : Except Err Unit :=
  .ok ()

/-! ## Close (manager.go:311-322) -/

/-- Result of one call to the service-backed manager's `Close`: either a
Go panic or a normal return carrying the cache-mount-sync hook's error. -/
inductive CloseOutcome where
  | panicked (msg : String)
  | returned (rerr : Option Err)
deriving DecidableEq, Repr

/-- Go `close` on a channel represented by its closed flag: `none` is the
runtime panic on an already-closed channel. -/
def closeChannel (closed : Bool) : Option Bool :=
  if closed then none else some true

/-- `Close` (manager.go:311-322) up to the blocking wait: unconditionally
close `startCloseCh`, run the optional `stopCacheMountSync` hook, and
return its error (`hook = none` models no hook installed). Returns the
outcome and the new closed flag of `startCloseCh`. -/
def managerClose (startCloseClosed : Bool) (hook : Option (Option Err)) :
    CloseOutcome × Bool :=
  match closeChannel startCloseClosed with
  | none => (.panicked "close of closed channel", startCloseClosed)
  | some closedNow =>
      (.returned (match hook with | none => none | some rerr => rerr),
       closedNow)

/-! ## Concrete environments used by the witnesses -/

/-- A minimal export environment: empty key store, server requesting
nothing. -/
def envEmptyExport : ExportEnv :=
  { entries := []
    updateCacheRecords := fun _ _ => .ok []
    getRef := fun _ => none
    push := fun _ => .ok ()
    updateCacheLayers := fun _ => .ok () }

/-- An export environment whose server requests one record that is
always skipped (its ref is never found). -/
def envSkippedRecord : ExportEnv :=
  { entries := []
    updateCacheRecords := fun _ _ => .ok [{ cacheRefID := "ref1", digest := "dg1" }]
    getRef := fun _ => none
    push := fun _ => .ok ()
    updateCacheLayers := fun _ => .ok () }

/-- Two stored keys: `k1` with one loadable worker-ref result and one
backlink, `k2` whose only result fails to load. -/
def entriesTwoKeys : List KeyEntry :=
  [{ id := "k1"
     backlinks := [("k0", { input := 0, digest := "dl", selector := "s" })]
     results := [({ id := "r1", createdAt := 5 }, .workerRef "ref1" "desc1")] },
   { id := "k2"
     backlinks := []
     results := [({ id := "r2", createdAt := 6 }, .loadErr "pruned")] }]

/-- An import environment whose `ImportCache` RPC fails. -/
def envImportRPCFails : ImportEnv :=
  { importCache := .error "rpc failed"
    parseConfig := fun _ _ => .ok 0
    newCacheKeyStorage := fun _ => .ok 0 }

/-- An import environment in which every step succeeds. -/
def envImportOK : ImportEnv :=
  { importCache := .ok { layers := [], rest := 0 }
    parseConfig := fun _ _ => .ok 3
    newCacheKeyStorage := fun _ => .ok 7 }

/-- A manager environment whose `GetConfig` reports a zero
`ImportPeriod`. -/
def envZeroPeriod : ManagerEnv :=
  { serviceURL := "http://cache.svc"
    engineID := "engine1"
    newClient := fun _ => .ok ()
    getConfig := fun _ => .ok { importPeriod := 0, exportPeriod := 5, exportTimeout := 5 }
    importEnv := envImportOK }

/-- A manager environment with an empty service URL. -/
def envEmptyURL : ManagerEnv :=
  { serviceURL := ""
    engineID := "engine1"
    newClient := fun _ => .ok ()
    getConfig := fun _ => .ok { importPeriod := 5, exportPeriod := 5, exportTimeout := 5 }
    importEnv := envImportOK }

/-- A manager environment whose initial synchronous import fails. -/
def envInitialImportFails : ManagerEnv :=
  { serviceURL := "http://cache.svc"
    engineID := "engine1"
    newClient := fun _ => .ok ()
    getConfig := fun _ => .ok { importPeriod := 5, exportPeriod := 5, exportTimeout := 5 }
    importEnv := envImportRPCFails }

/-- A concrete advertised layer with full annotations. -/
def layerFull : CacheLayer :=
  { blob := "sha256:blob1"
    annotations := some
      { diffID := "sha256:diff1", mediaType := "mt", size := 3, createdAt := 5 } }

/-! ## Helper lemmas -/

theorem walkBacklinks_eq (e : KeyEntry) (links : List Link) :
    walkBacklinks e links = links ++ keyLinksSpec e := by
  unfold walkBacklinks keyLinksSpec
  induction e.backlinks generalizing links with
  | nil => simp
  | cons p ps ih => simp [List.foldl_cons, ih, List.append_assoc]

theorem walkResults_foldl_eq (rs : List (CacheResult × LoadOutcome))
    (acc : List WireResult × List String) :
    rs.foldl
      (fun acc p =>
        match p.2 with
        | .loadErr _ => acc
        | .notWorkerRef => (acc.1, acc.2 ++ [p.1.id])
        | .workerRef refID desc =>
            (acc.1 ++ [{ id := refID, createdAt := p.1.createdAt,
                         description := desc }], acc.2 ++ [p.1.id]))
      acc
    = (acc.1 ++ keyResultsSpec rs, acc.2 ++ keyReleasedSpec rs) := by
  induction rs generalizing acc with
  | nil => simp [keyResultsSpec, keyReleasedSpec]
  | cons p ps ih =>
      cases hp : p.2 <;>
        simp [List.foldl_cons, hp, ih, keyResultsSpec, keyReleasedSpec,
              List.filterMap_cons, List.append_assoc]

theorem walkResults_eq (rs : List (CacheResult × LoadOutcome)) :
    walkResults rs = (keyResultsSpec rs, keyReleasedSpec rs) := by
  have h := walkResults_foldl_eq rs ([], [])
  simpa [walkResults] using h

theorem exportWalk_foldl_eq (entries : List KeyEntry) (acc : WalkOut) :
    entries.foldl
      (fun acc e =>
        let links := walkBacklinks e acc.links
        let rr := walkResults e.results
        { cacheKeys := acc.cacheKeys ++ [{ id := e.id, results := rr.1 }],
          links := links,
          released := acc.released ++ rr.2 : WalkOut })
      acc
    = { cacheKeys := acc.cacheKeys ++
          entries.map (fun e => { id := e.id, results := keyResultsSpec e.results }),
        links := acc.links ++ entries.flatMap keyLinksSpec,
        released := acc.released ++ entries.flatMap (fun e => keyReleasedSpec e.results) } := by
  induction entries generalizing acc with
  | nil => simp
  | cons e es ih =>
      rw [List.foldl_cons, ih]
      simp [walkBacklinks_eq, walkResults_eq, List.append_assoc]

theorem exportWalk_eq (entries : List KeyEntry) :
    exportWalk entries =
      { cacheKeys := entries.map
          (fun e => { id := e.id, results := keyResultsSpec e.results }),
        links := entries.flatMap keyLinksSpec,
        released := entries.flatMap (fun e => keyReleasedSpec e.results) } := by
  have h := exportWalk_foldl_eq entries ⟨[], [], []⟩
  simpa [exportWalk] using h

theorem phase3_ok_eq (env : ExportEnv) (rs : List ExportRecord)
    (l : List RecordLayers) (p : List Descriptor)
    (h : phase3 env rs = (.ok l, p)) :
    l = rs.filterMap (recordUploadOutcome env) := by
  induction rs generalizing l p with
  | nil =>
      simp [phase3] at h
      simp [h.1]
  | cons r rs ih =>
      simp only [phase3, processRecord] at h
      cases hg : env.getRef r.cacheRefID with
      | none =>
          rw [hg] at h
          simp only [] at h
          cases hrest : phase3 env rs with
          | mk res2 p2 =>
              rw [hrest] at h
              cases res2 with
              | error e => simp at h
              | ok tail =>
                  simp only [Prod.mk.injEq, Except.ok.injEq] at h
                  simp [List.filterMap_cons, recordUploadOutcome, hg, ← h.1,
                        ih tail p2 (by rw [hrest, h.1])]
      | some ex =>
          rw [hg] at h
          cases ex with
          | error e => simp at h
          | ok remotes =>
              cases remotes with
              | nil =>
                  simp only [] at h
                  cases hrest : phase3 env rs with
                  | mk res2 p2 =>
                      rw [hrest] at h
                      cases res2 with
                      | error e => simp at h
                      | ok tail =>
                          simp only [Prod.mk.injEq, Except.ok.injEq] at h
                          simp [List.filterMap_cons, recordUploadOutcome, hg, ← h.1,
                                ih tail p2 (by rw [hrest, h.1])]
              | cons remote rem =>
                  simp only [] at h
                  cases hp : pushAll env remote.descriptors with
                  | mk pres ppushed =>
                      rw [hp] at h
                      cases pres with
                      | error e =>
                          cases hrest : phase3 env rs with
                          | mk res2 p2 => rw [hrest] at h; simp at h
                      | ok u =>
                          cases hrest : phase3 env rs with
                          | mk res2 p2 =>
                              rw [hrest] at h
                              cases res2 with
                              | error e => simp at h
                              | ok tail =>
                                  simp only [Prod.mk.injEq, Except.ok.injEq] at h
                                  simp [List.filterMap_cons, recordUploadOutcome,
                                        hg, hp, ← h.1, ih tail p2 hrest]

theorem phase3_all_skipped (env : ExportEnv) (rs : List ExportRecord)
    (h : ∀ r ∈ rs, recordSkipped env r) :
    phase3 env rs = (.ok [], []) := by
  induction rs with
  | nil => simp [phase3]
  | cons r rs ih =>
      have hr := h r (by simp)
      have hrest := ih (fun x hx => h x (by simp [hx]))
      cases hr with
      | inl hg => simp [phase3, processRecord, hg, hrest]
      | inr hg => simp [phase3, processRecord, hg, hrest]

/-! ## Claim theorems -/

/-- Claim C1: for every successful Export, the `RecordLayers` passed to
`UpdateCacheLayers` in Phase 4 are exactly the records whose layers all
uploaded successfully in Phase 3 (skipped and failed records contribute
nothing); an empty `ExportRecords` reply from `UpdateCacheRecords` ends
the run successfully with no layer pushed and no `UpdateCacheLayers`
call; and a Phase 3 error prevents the `UpdateCacheLayers` call
altogether. -/
theorem export_reports_exactly_successes (env : ExportEnv)
    (records : List ExportRecord)
    (h : env.updateCacheRecords (exportWalk env.entries).cacheKeys
          (exportWalk env.entries).links = .ok records) :
    (records = [] →
       Export env = { result := .ok (), updateLayersArg := none, pushed := [] })
    ∧ (records ≠ [] → (Export env).result = .ok () →
       (Export env).updateLayersArg =
         some (records.filterMap (recordUploadOutcome env)))
    ∧ (∀ e pushed, phase3 env records = (.error e, pushed) →
       (Export env).updateLayersArg = none) := by
  refine ⟨?_, ?_, ?_⟩
  · intro hnil
    subst hnil
    simp [Export, h]
  · intro hne hok
    cases hph3 : phase3 env records with
    | mk res p =>
        cases res with
        | error e =>
            exfalso
            have hres : (Export env).result = .error e := by
              simp [Export, h, hph3, if_neg hne]
            rw [hres] at hok
            exact Except.noConfusion hok
        | ok l =>
            simp [Export, h, hph3, if_neg hne,
                  phase3_ok_eq env records l p hph3]
  · intro e pushed hph
    have hne2 : ¬ records = [] := by
      intro h0
      subst h0
      simp [phase3] at hph
    simp [Export, h, hph, if_neg hne2]

/-- Witness for C1: in the environment whose server requests nothing,
Export succeeds immediately with no push and no `UpdateCacheLayers`
call. -/
theorem export_reports_exactly_successes_witness :
    Export envEmptyExport
      = { result := .ok (), updateLayersArg := none, pushed := [] } :=
  (export_reports_exactly_successes envEmptyExport [] rfl).1 rfl

/-- Claim C9: a non-empty `ExportRecords` reply all of whose records are
skipped in Phase 3 still reaches Phase 4: `UpdateCacheLayers` is called
with an empty `UpdatedRecords` list, and Export succeeds when that call
does. -/
theorem export_all_skipped_still_commits (env : ExportEnv)
    (records : List ExportRecord)
    (h : env.updateCacheRecords (exportWalk env.entries).cacheKeys
          (exportWalk env.entries).links = .ok records)
    (hne : records ≠ [])
    (hskip : ∀ r ∈ records, recordSkipped env r) :
    (Export env).updateLayersArg = some []
    ∧ (Export env).result = env.updateCacheLayers []
    ∧ (env.updateCacheLayers [] = .ok () → (Export env).result = .ok ()) := by
  have hph := phase3_all_skipped env records hskip
  refine ⟨?_, ?_, ?_⟩ <;> simp [Export, h, hph, if_neg hne]

/-- Witness for C9: one requested record whose ref is never found. -/
theorem export_all_skipped_still_commits_witness :
    (Export envSkippedRecord).updateLayersArg = some []
    ∧ (Export envSkippedRecord).result = .ok () := by
  have H := export_all_skipped_still_commits envSkippedRecord
    [{ cacheRefID := "ref1", digest := "dg1" }] rfl (by simp)
    (fun r _ => Or.inl rfl)
  exact ⟨H.1, H.2.2 rfl⟩

/-- Claim C4: the Phase 1 walk emits one `CacheKey` per stored key ID and
one `Link` per backlink (flattening Input, Digest and Selector); results
whose load fails or whose handle is not an immutable worker ref are
skipped without failing the walk, so a key whose results were all skipped
still appears with an empty Results list and all links preserved, and
exactly the successfully loaded results are released. -/
theorem export_walk_spec (entries : List KeyEntry) :
    (exportWalk entries).cacheKeys
        = entries.map (fun e => { id := e.id, results := keyResultsSpec e.results })
    ∧ (exportWalk entries).links = entries.flatMap keyLinksSpec
    ∧ (exportWalk entries).released
        = entries.flatMap (fun e => keyReleasedSpec e.results)
    ∧ (∀ e ∈ entries,
        (∀ p ∈ e.results, ∀ refID desc, p.2 ≠ LoadOutcome.workerRef refID desc) →
        ({ id := e.id, results := [] } : WireCacheKey) ∈ (exportWalk entries).cacheKeys) := by
  refine ⟨?_, ?_, ?_, ?_⟩
  · simp [exportWalk_eq]
  · simp [exportWalk_eq]
  · simp [exportWalk_eq]
  · intro e he hskip
    have hres : keyResultsSpec e.results = [] := by
      unfold keyResultsSpec
      rw [List.filterMap_eq_nil_iff]
      intro p hp
      cases hp2 : p.2 with
      | loadErr m => simp [hp2]
      | notWorkerRef => simp [hp2]
      | workerRef refID desc => exact absurd hp2 (hskip p hp refID desc)
    have hmem : ({ id := e.id, results := keyResultsSpec e.results } : WireCacheKey)
        ∈ (exportWalk entries).cacheKeys := by
      simp only [exportWalk_eq]
      exact List.mem_map_of_mem _ he
    simpa [hres] using hmem

/-- Witness for C4: a key whose only result fails to load still appears,
with empty results. -/
theorem export_walk_spec_witness :
    ({ id := "k2", results := [] } : WireCacheKey)
      ∈ (exportWalk entriesTwoKeys).cacheKeys := by
  have H := (export_walk_spec entriesTwoKeys).2.2.2
  refine H
    { id := "k2", backlinks := [],
      results := [({ id := "r2", createdAt := 6 }, .loadErr "pruned")] }
    (by simp [entriesTwoKeys]) ?_
  intro p hp refID desc
  simp only [List.mem_singleton] at hp
  simp [hp]

/-- Claim C2: Import leaves the combined view untouched whenever any step
fails (the ImportCache RPC, a layer translation, the config parse, or the
key/result storage build), and replaces it only when every step
succeeds. -/
theorem import_failure_preserves_view (env : ImportEnv) (st : MState) :
    (∀ e, (Import env st).1 = .error e → (Import env st).2 = st)
    ∧ ((Import env st).1 = .ok () →
        ∃ cacheConfig descProvider chain storage,
          env.importCache = .ok cacheConfig
          ∧ buildDescProvider cacheConfig.layers = .ok descProvider
          ∧ env.parseConfig cacheConfig descProvider = .ok chain
          ∧ env.newCacheKeyStorage chain = .ok storage
          ∧ (Import env st).2 = { inner := some { imported := storage } }) := by
  cases hic : env.importCache with
  | error e => simp [Import, hic]
  | ok cacheConfig =>
      cases hdp : buildDescProvider cacheConfig.layers with
      | error e => simp [Import, hic, hdp]
      | ok descProvider =>
          cases hpc : env.parseConfig cacheConfig descProvider with
          | error e => simp [Import, hic, hdp, hpc]
          | ok chain =>
              cases hks : env.newCacheKeyStorage chain with
              | error e => simp [Import, hic, hdp, hpc, hks]
              | ok storage =>
                  constructor
                  · intro e he
                    simp [Import, hic, hdp, hpc, hks] at he
                  · intro _
                    exact ⟨cacheConfig, descProvider, chain, storage,
                           rfl, hdp, hpc, hks,
                           by simp [Import, hic, hdp, hpc, hks]⟩

/-- Witness for C2: a failing ImportCache RPC leaves a previously
installed view in place. -/
theorem import_failure_preserves_view_witness :
    (Import envImportRPCFails { inner := some { imported := 7 } }).2
      = { inner := some { imported := 7 } } :=
  (import_failure_preserves_view envImportRPCFails
    { inner := some { imported := 7 } }).1 "rpc failed" rfl

/-- Claim C5: translating advertised layer metadata fails exactly when
its annotations are nil or its diff ID is empty; otherwise the produced
descriptor carries containerd.io/uncompressed equal to the diff ID,
carries buildkit/createdat exactly when CreatedAt is non-zero, and takes
its media type and size from the metadata annotations and its digest from
the metadata's blob digest. -/
theorem descriptorProviderPair_spec (lm : CacheLayer) :
    ((∃ e, descriptorProviderPair lm = .error e) ↔
       (lm.annotations = none
        ∨ ∃ ann, lm.annotations = some ann ∧ ann.diffID = ""))
    ∧ (∀ ann, lm.annotations = some ann → ann.diffID ≠ "" →
        ∃ d, descriptorProviderPair lm = .ok d
          ∧ d.mediaType = ann.mediaType
          ∧ d.size = ann.size
          ∧ d.digest = lm.blob
          ∧ d.annotations.lookup "containerd.io/uncompressed" = some ann.diffID
          ∧ d.annotations.lookup "buildkit/createdat" =
              (if ann.createdAt = 0 then none
               else some (timeMarshalText ann.createdAt))) := by
  constructor
  · constructor
    · rintro ⟨e, he⟩
      cases hann : lm.annotations with
      | none => exact Or.inl rfl
      | some ann =>
          by_cases hd : ann.diffID = ""
          · exact Or.inr ⟨ann, rfl, hd⟩
          · exfalso
            simp [descriptorProviderPair, hann, hd] at he
    · rintro (hnone | ⟨ann, hann, hd⟩)
      · exact ⟨"missing annotations for layer " ++ lm.blob,
               by simp [descriptorProviderPair, hnone]⟩
      · exact ⟨"missing diffID for layer " ++ lm.blob,
               by simp [descriptorProviderPair, hann, hd]⟩
  · intro ann hann hd
    by_cases hc : ann.createdAt = 0
    · refine ⟨{ mediaType := ann.mediaType, digest := lm.blob, size := ann.size,
                annotations := [("containerd.io/uncompressed", ann.diffID)] },
              ?_, rfl, rfl, rfl, ?_, ?_⟩
      · simp [descriptorProviderPair, hann, hd, hc]
      · simp [List.lookup]
      · simp [List.lookup, hc]
    · refine ⟨{ mediaType := ann.mediaType, digest := lm.blob, size := ann.size,
                annotations :=
                  [("containerd.io/uncompressed", ann.diffID),
                   ("buildkit/createdat", timeMarshalText ann.createdAt)] },
              ?_, rfl, rfl, rfl, ?_, ?_⟩
      · simp [descriptorProviderPair, hann, hd, hc]
      · simp [List.lookup]
      · simp [List.lookup, hc]

/-- Witness for C5 on a fully annotated layer. -/
theorem descriptorProviderPair_spec_witness :
    ∃ d, descriptorProviderPair layerFull = .ok d
      ∧ d.mediaType = "mt"
      ∧ d.size = 3
      ∧ d.digest = "sha256:blob1"
      ∧ d.annotations.lookup "containerd.io/uncompressed" = some "sha256:diff1"
      ∧ d.annotations.lookup "buildkit/createdat" = some (timeMarshalText 5) := by
  have H := (descriptorProviderPair_spec layerFull).2
    { diffID := "sha256:diff1", mediaType := "mt", size := 3, createdAt := 5 }
    rfl (by decide)
  simpa using H

/-- Claim C3: a configuration in which any of ImportPeriod, ExportPeriod
or ExportTimeout is not strictly positive fails manager construction with
an error whose message contains "import/export periods must be non-zero",
and no background loop is started. -/
theorem newManager_rejects_nonpositive_periods (env : ManagerEnv) (config : Config)
    (hurl : env.serviceURL ≠ "")
    (hclient : env.newClient env.serviceURL = .ok ())
    (hcfg : env.getConfig env.engineID = .ok config)
    (hzero : ¬ 0 < config.importPeriod ∨ ¬ 0 < config.exportPeriod ∨
             ¬ 0 < config.exportTimeout) :
    ∃ msg, NewManager env =
        { result := .error msg,
          importLoopStarted := false, exportLoopStarted := false }
      ∧ ∃ pre post, msg = pre ++ "import/export periods must be non-zero" ++ post := by
  have hz : config.importPeriod = 0 ∨ config.exportPeriod = 0 ∨
      config.exportTimeout = 0 := by
    rcases hzero with h0 | h0 | h0
    · exact Or.inl (by omega)
    · exact Or.inr (Or.inl (by omega))
    · exact Or.inr (Or.inr (by omega))
  exact ⟨"invalid cache config: import/export periods must be non-zero",
         by simp [NewManager, if_neg hurl, hclient, hcfg, if_pos hz],
         "invalid cache config: ", "", by decide⟩

/-- Witness for C3: GetConfig reporting ImportPeriod zero. -/
theorem newManager_rejects_nonpositive_periods_witness :
    ∃ msg, NewManager envZeroPeriod =
        { result := .error msg,
          importLoopStarted := false, exportLoopStarted := false }
      ∧ ∃ pre post, msg = pre ++ "import/export periods must be non-zero" ++ post :=
  newManager_rejects_nonpositive_periods envZeroPeriod
    { importPeriod := 0, exportPeriod := 5, exportTimeout := 5 }
    (by decide) rfl rfl (Or.inl (by decide))

/-- Claim C6: an empty service URL yields the degenerate manager backed
purely by the local cache: no loop is started, every solver-facing
operation delegates to the local cache only, and both lifecycle
operations return nil. -/
theorem newManager_empty_url_degenerate (env : ManagerEnv)
    (h : env.serviceURL = "") :
    NewManager env = { result := .ok .degenerate,
                       importLoopStarted := false, exportLoopStarted := false }
    ∧ (∀ lc q, (DefaultCacheManager.mk lc).query q = lc.query q)
    ∧ (∀ lc q, (DefaultCacheManager.mk lc).records q = lc.records q)
    ∧ (∀ lc q, (DefaultCacheManager.mk lc).load q = lc.load q)
    ∧ (∀ lc q, (DefaultCacheManager.mk lc).save q = lc.save q)
    ∧ (∀ lc, (DefaultCacheManager.mk lc).startCacheMountSynchronization = .ok ())
    ∧ (∀ lc, (DefaultCacheManager.mk lc).close = .ok ()) :=
  ⟨by simp [NewManager, h], fun _ _ => rfl, fun _ _ => rfl, fun _ _ => rfl,
   fun _ _ => rfl, fun _ => rfl, fun _ => rfl⟩

/-- Witness for C6 at a concrete empty-URL environment. -/
theorem newManager_empty_url_degenerate_witness :
    NewManager envEmptyURL = { result := .ok .degenerate,
                               importLoopStarted := false,
                               exportLoopStarted := false } :=
  (newManager_empty_url_degenerate envEmptyURL rfl).1

/-- Claim C7: with a non-empty service URL and a valid config, a failing
initial synchronous Import fails construction with the same error, and
neither the import loop nor the export loop is started. -/
theorem newManager_initial_import_failure (env : ManagerEnv) (config : Config)
    (e : Err)
    (hurl : env.serviceURL ≠ "")
    (hclient : env.newClient env.serviceURL = .ok ())
    (hcfg : env.getConfig env.engineID = .ok config)
    (hip : 0 < config.importPeriod) (hep : 0 < config.exportPeriod)
    (het : 0 < config.exportTimeout)
    (himp : (Import env.importEnv { inner := none }).1 = .error e) :
    NewManager env = { result := .error e,
                       importLoopStarted := false, exportLoopStarted := false } := by
  have hz : ¬ (config.importPeriod = 0 ∨ config.exportPeriod = 0 ∨
      config.exportTimeout = 0) := by
    rintro (h0 | h0 | h0) <;> omega
  cases hImp : Import env.importEnv { inner := none } with
  | mk res st =>
      rw [hImp] at himp
      simp only [] at himp
      subst himp
      simp [NewManager, if_neg hurl, hclient, hcfg, if_neg hz, hImp]

/-- Witness for C7: initial import whose RPC fails. -/
theorem newManager_initial_import_failure_witness :
    NewManager envInitialImportFails
      = { result := .error "rpc failed",
          importLoopStarted := false, exportLoopStarted := false } :=
  newManager_initial_import_failure envInitialImportFails
    { importPeriod := 5, exportPeriod := 5, exportTimeout := 5 } "rpc failed"
    (by decide) rfl rfl (by decide) (by decide) (by decide) rfl

/-- Claim C10: Close is not idempotent: it unconditionally closes the
startClose channel on entry, so a first call returns normally (with the
hook's error) and leaves the channel closed, while a call with the
channel already closed panics with "close of closed channel" instead of
returning an error. -/
theorem close_not_idempotent (hook hook2 : Option (Option Err)) :
    (managerClose false hook).2 = true
    ∧ (managerClose false hook).1 = .returned (hook.getD none)
    ∧ (∀ msg, (managerClose false hook).1 ≠ .panicked msg)
    ∧ (managerClose true hook2).1 = .panicked "close of closed channel"
    ∧ (managerClose (managerClose false hook).2 hook2).1
        = .panicked "close of closed channel" := by
  refine ⟨rfl, ?_, ?_, rfl, rfl⟩
  · cases hook <;> rfl
  · intro msg
    cases hook <;> simp [managerClose, closeChannel]

/-- Witness for C10: a second Close panics. -/
theorem close_not_idempotent_witness :
    (managerClose true (some (some "hook error"))).1
      = .panicked "close of closed channel" :=
  (close_not_idempotent (some (some "hook error"))
    (some (some "hook error"))).2.2.2.1

end EngineCache
